import Mathlib

/-!
# Verification of the DoorBird client library (doorbirdpy)

A shallow embedding of `doorbirdpy/__init__.py` and
`doorbirdpy/schedule_entry.py`.  Python dictionaries holding JSON data are
modelled by the inductive type `JVal`; Python exceptions that the code can
raise or catch are modelled by `PyErr` together with `Except`; the HTTP
transport is modelled as a stream of responses indexed by the request
number, so that the number of requests an operation issues is visible in
its result.
-/

/-- A JSON value as decoded by Python's `json` module (no floats appear in
the device payloads that this library manipulates). Objects are ordered
association lists, matching Python dict insertion order. -/
inductive JVal where
  | jNull : JVal
  | jBool : Bool → JVal
  | jInt : Int → JVal
  | jStr : String → JVal
  | jArr : List JVal → JVal
  | jObj : List (String × JVal) → JVal

/-- The Python exceptions relevant to this library. -/
inductive PyErr where
  | keyError : String → PyErr
  | valueError : PyErr
  | typeError : PyErr
deriving Repr, DecidableEq

/-- Python truthiness (`bool(x)`) of a JSON value: `None`, `False`, `0`,
`""`, `[]` and the empty dict are falsy, everything else is truthy. -/
def pyTruthy : JVal → Bool
  | .jNull => false
  | .jBool b => b
  | .jInt n => n != 0
  | .jStr s => s != ""
  | .jArr [] => false
  | .jArr (_ :: _) => true
  | .jObj [] => false
  | .jObj (_ :: _) => true

/-- Python `data[key]` on a dict: the value, or a `KeyError`. -/
def dictGet (fs : List (String × JVal)) (k : String) : Except PyErr JVal :=
  match fs.lookup k with
  | some v => .ok v
  | none => .error (.keyError k)

/-- Fuel-based core of decimal printing (structural, so that concrete
values reduce inside the kernel). -/
def pyNatCharsCore : Nat → Nat → List Char
  | 0, _ => []
  | fuel + 1, n =>
    if n < 10 then [Nat.digitChar n]
    else pyNatCharsCore fuel (n / 10) ++ [Nat.digitChar (n % 10)]

/-- The decimal digit characters of `n`, most significant first: the
characters of Python's `str(n)` for a natural number. -/
def pyNatChars (n : Nat) : List Char :=
  pyNatCharsCore (n + 1) n

/-- The characters of Python's `str(n)` for an integer. -/
def pyIntChars (n : Int) : List Char :=
  if n < 0 then '-' :: pyNatChars n.natAbs else pyNatChars n.natAbs

/-- Python `str(n)` for an integer. -/
def pyStr (n : Int) : String :=
  String.mk (pyIntChars n)

/-- The value of a decimal digit character, if it is one. -/
def digitVal (c : Char) : Option Nat :=
  if '0' ≤ c ∧ c ≤ '9' then some (c.toNat - 48) else none

/-- Accumulating core of decimal parsing. -/
def pyNatCore : List Char → Nat → Option Nat
  | [], acc => some acc
  | c :: cs, acc =>
    match digitVal c with
    | some d => pyNatCore cs (acc * 10 + d)
    | none => none

/-- Python `int(s)` on a string of decimal digits (no sign): `none` models
a raised `ValueError`. -/
def pyNatOfChars (l : List Char) : Option Nat :=
  match l with
  | [] => none
  | _ => pyNatCore l 0

/-- Python `int(s)` on a string, allowing a single leading sign. -/
def pyIntOfChars (l : List Char) : Option Int :=
  match l with
  | [] => none
  | c :: r =>
    if c = '-' then (pyNatOfChars r).map (fun m => -(Int.ofNat m))
    else if c = '+' then (pyNatOfChars r).map Int.ofNat
    else (pyNatOfChars l).map Int.ofNat

/-- Python `int(x)` applied to a JSON value: integers pass through,
booleans coerce, strings are parsed (`ValueError` on failure), and
`None`/lists/dicts raise `TypeError`. -/
def pyIntJ : JVal → Except PyErr Int
  | .jInt n => .ok n
  | .jBool b => .ok (if b then 1 else 0)
  | .jStr s =>
    match pyIntOfChars s.data with
    | some n => .ok n
    | none => .error .valueError
  | _ => .error .typeError

/-!
## Schedule model (`doorbirdpy/schedule_entry.py`)

`DoorBirdScheduleEntrySchedule` stores `once` as `Option Bool` (the
Python object stores the dict `\x7b"valid": 1 or 0\x7d`, which is determined by
the boolean handed to `set_once`), and `from_to`/`weekdays` as optional
lists of integer pairs (the Python object stores each bound as the
canonical decimal string `str(int(x))`, which is determined by the
integer).
-/

structure DoorBirdScheduleEntrySchedule where
  once : Option Bool
  from_to : Option (List (Int × Int))
  weekdays : Option (List (Int × Int))
deriving Repr, DecidableEq

namespace DoorBirdScheduleEntrySchedule

/-- `__init__`: all three fields start as `None`. -/
def init : DoorBirdScheduleEntrySchedule :=
  { once := none, from_to := none, weekdays := none }

/-- `set_once`. -/
def set_once (s : DoorBirdScheduleEntrySchedule) (enabled : Bool) :
    DoorBirdScheduleEntrySchedule :=
  { s with once := some enabled }

/-- The current `from_to` list after `if not self.from_to: self.from_to = []`:
`None` and the empty list both reset to `[]`. -/
def curFromTo (s : DoorBirdScheduleEntrySchedule) : List (Int × Int) :=
  match s.from_to with
  | some (p :: l) => p :: l
  | _ => []

/-- The current `weekdays` list after `if not self.weekdays: self.weekdays = []`. -/
def curWeekdays (s : DoorBirdScheduleEntrySchedule) : List (Int × Int) :=
  match s.weekdays with
  | some (p :: l) => p :: l
  | _ => []

/-- `add_range`: appends a pair whose bounds are stored as `str(int(_))`. -/
def add_range (s : DoorBirdScheduleEntrySchedule) (sec_from sec_to : Int) :
    DoorBirdScheduleEntrySchedule :=
  { s with from_to := some (s.curFromTo ++ [(sec_from, sec_to)]) }

/-- `add_weekday`: appends a pair whose bounds are stored as `str(int(_))`. -/
def add_weekday (s : DoorBirdScheduleEntrySchedule) (sec_from sec_to : Int) :
    DoorBirdScheduleEntrySchedule :=
  { s with weekdays := some (s.curWeekdays ++ [(sec_from, sec_to)]) }

/-- The exported JSON object for one stored range:
`\x7b"from": str(from), "to": str(to)\x7d`. -/
def rangeObj (p : Int × Int) : JVal :=
  .jObj [("from", .jStr (pyStr p.1)), ("to", .jStr (pyStr p.2))]

/-- The exported JSON object for the stored `once` dict `\x7b"valid": 0|1\x7d`. -/
def onceObj (b : Bool) : JVal :=
  .jObj [("valid", .jInt (if b then 1 else 0))]

/-- The fields of `export`: each key is emitted only when the stored
attribute is truthy (`once` is a non-empty dict whenever set; the two
lists must be non-empty). -/
def exportFields (s : DoorBirdScheduleEntrySchedule) : List (String × JVal) :=
  (match s.once with
   | some b => [("once", onceObj b)]
   | none => []) ++
  (match s.from_to with
   | some (p :: l) => [("from-to", JVal.jArr ((p :: l).map rangeObj))]
   | _ => []) ++
  (match s.weekdays with
   | some (p :: l) => [("weekdays", JVal.jArr ((p :: l).map rangeObj))]
   | _ => [])

/-- The `export` property. -/
def exportJson (s : DoorBirdScheduleEntrySchedule) : JVal :=
  .jObj s.exportFields

/-- One iteration of the `for from_to in data["from-to"]` loop:
`add_range(from_to["from"], from_to["to"])` where each bound goes through
`int(_)`. Indexing a non-dict with a string key raises `TypeError`. -/
def parseRangeStep (s : DoorBirdScheduleEntrySchedule) (it : JVal) :
    Except PyErr DoorBirdScheduleEntrySchedule :=
  match it with
  | .jObj ifs => do
    let f ← dictGet ifs "from"
    let t ← dictGet ifs "to"
    let fi ← pyIntJ f
    let ti ← pyIntJ t
    pure (s.add_range fi ti)
  | _ => .error .typeError

/-- One iteration of the `for weekday in data["weekdays"]` loop:
`add_weekday(int(weekday["from"]), int(weekday["to"]))`. -/
def parseWeekdayStep (s : DoorBirdScheduleEntrySchedule) (it : JVal) :
    Except PyErr DoorBirdScheduleEntrySchedule :=
  match it with
  | .jObj ifs => do
    let f ← dictGet ifs "from"
    let t ← dictGet ifs "to"
    let fi ← pyIntJ f
    let ti ← pyIntJ t
    pure (s.add_weekday fi ti)
  | _ => .error .typeError

/-- `DoorBirdScheduleEntrySchedule.parse`: builds an empty schedule, then
processes the optional `once`, `from-to` and `weekdays` sections in order.
Iterating a non-list section raises `TypeError`. -/
def parse (data : JVal) : Except PyErr DoorBirdScheduleEntrySchedule :=
  match data with
  | .jObj fs => do
    let s0 := init
    let s1 :=
      match fs.lookup "once" with
      | some v => s0.set_once (pyTruthy v)
      | none => s0
    let s2 ←
      match fs.lookup "from-to" with
      | some (.jArr items) => items.foldlM parseRangeStep s1
      | some _ => .error .typeError
      | none => pure s1
    let s3 ←
      match fs.lookup "weekdays" with
      | some (.jArr items) => items.foldlM parseWeekdayStep s2
      | some _ => .error .typeError
      | none => pure s2
    pure s3
  | _ => .error .typeError

end DoorBirdScheduleEntrySchedule

/-- `DoorBirdScheduleEntryOutput`: `event` and `param` hold arbitrary
decoded JSON values (strings in normal use). -/
structure DoorBirdScheduleEntryOutput where
  enabled : Bool
  event : JVal
  param : JVal
  schedule : DoorBirdScheduleEntrySchedule

namespace DoorBirdScheduleEntryOutput

/-- `__init__(enabled=True, event=None, param="", schedule=None)`: a missing
schedule defaults to a fresh empty schedule. -/
def init (enabled : Bool) (event : JVal) (param : JVal)
    (schedule : Option DoorBirdScheduleEntrySchedule) :
    DoorBirdScheduleEntryOutput :=
  { enabled := enabled, event := event, param := param,
    schedule := schedule.getD DoorBirdScheduleEntrySchedule.init }

/-- The `export` property: `enabled` is rendered as the string `"1"`/`"0"`. -/
def exportJson (o : DoorBirdScheduleEntryOutput) : JVal :=
  .jObj [("enabled", .jStr (if o.enabled then "1" else "0")),
         ("event", o.event),
         ("param", o.param),
         ("schedule", o.schedule.exportJson)]

/-- `DoorBirdScheduleEntryOutput.parse`: `enabled` is
`bool(data["enabled"]) if "enabled" in data else False` (truthiness, and
`False` when the key is absent); `event`, `param` and `schedule` are read
with plain indexing, so a missing key raises `KeyError`, in that order. -/
def parse (data : JVal) : Except PyErr DoorBirdScheduleEntryOutput :=
  match data with
  | .jObj fs => do
    let en :=
      match fs.lookup "enabled" with
      | some v => pyTruthy v
      | none => false
    let ev ← dictGet fs "event"
    let pm ← dictGet fs "param"
    let schData ← dictGet fs "schedule"
    let sch ← DoorBirdScheduleEntrySchedule.parse schData
    pure { enabled := en, event := ev, param := pm, schedule := sch }
  | _ => .error .typeError

end DoorBirdScheduleEntryOutput

/-- `DoorBirdScheduleEntry`. -/
structure DoorBirdScheduleEntry where
  input : JVal
  param : JVal
  output : List DoorBirdScheduleEntryOutput

namespace DoorBirdScheduleEntry

/-- `__init__(input, param="")`: `output` starts empty. -/
def init (input : JVal) (param : JVal) : DoorBirdScheduleEntry :=
  { input := input, param := param, output := [] }

/-- The `export` property. -/
def exportJson (e : DoorBirdScheduleEntry) : JVal :=
  .jObj [("input", e.input),
         ("param", e.param),
         ("output", .jArr (e.output.map DoorBirdScheduleEntryOutput.exportJson))]

/-- `DoorBirdScheduleEntry.parse`: reads `input` and `param` with plain
indexing (missing keys raise `KeyError`), then parses every element of
`data["output"]`. -/
def parse (data : JVal) : Except PyErr DoorBirdScheduleEntry :=
  match data with
  | .jObj fs => do
    let inp ← dictGet fs "input"
    let pm ← dictGet fs "param"
    let outsData ← dictGet fs "output"
    match outsData with
    | .jArr items => do
      let outs ← items.mapM DoorBirdScheduleEntryOutput.parse
      pure { input := inp, param := pm, output := outs }
    | _ => .error .typeError
  | _ => .error .typeError

/-- `DoorBirdScheduleEntry.parse_all`. -/
def parse_all (data : JVal) : Except PyErr (List DoorBirdScheduleEntry) :=
  match data with
  | .jArr items => items.mapM parse
  | _ => .error .typeError

end DoorBirdScheduleEntry

/-!
## Device client (`doorbirdpy/__init__.py`)

URL quoting is modelled per character (`urllib.parse.quote_plus` on the
ASCII characters the library actually sends); the HTTP transport is a
stream `Nat → HttpResp` of responses indexed by the request number, and
every operation returns, besides its result, the index after its last
request, so the number of requests it issues is `final - initial`.
-/

/-- A character `urllib.parse.quote_plus` leaves unescaped. -/
def quoteSafe (c : Char) : Bool :=
  c.isAlphanum || c = '_' || c = '.' || c = '-' || c = '~'

/-- An uppercase hexadecimal digit. -/
def hexDigit (n : Nat) : Char :=
  if n < 10 then Char.ofNat (48 + n) else Char.ofNat (55 + n)

/-- `quote_plus` on one character: safe characters pass through, a space
becomes `+`, anything else becomes a percent escape of its code. -/
def quoteChar (c : Char) : List Char :=
  if quoteSafe c then [c]
  else if c = ' ' then ['+']
  else ['%', hexDigit (c.toNat / 16 % 16), hexDigit (c.toNat % 16)]

/-- `urllib.parse.quote_plus` over a whole string. -/
def pyQuotePlus (s : String) : String :=
  String.mk ((s.data.map quoteChar).flatten)

/-- `urllib.parse.urlencode`: `key=value` pairs joined by `&`, both sides
quoted, in the order given. -/
def urlencode (args : List (String × String)) : String :=
  String.intercalate "&" (args.map fun p => pyQuotePlus p.1 ++ "=" ++ pyQuotePlus p.2)

/-- The connection parameters held by a `DoorBird` instance. -/
structure DoorBird where
  ip : String
  username : String
  password : String

namespace DoorBird

/-- `DoorBird.__url`: `query` is empty when no args are given, and the
credentials are embedded in the authority exactly when `auth` is true. -/
def url (c : DoorBird) (path : String) (args : List (String × String))
    (port : Int) (auth : Bool) : String :=
  let query := if args = [] then "" else urlencode args
  if auth then
    "http://" ++ c.username ++ ":" ++ c.password ++ "@" ++ c.ip ++ ":" ++
      pyStr port ++ "/bha-api/" ++ path ++ "?" ++ query
  else
    "http://" ++ c.ip ++ ":" ++ pyStr port ++ "/bha-api/" ++ path ++ "?" ++ query

end DoorBird

/-- One HTTP exchange as seen by the client: the status code, the decoded
text of the body, and the result of `json.loads` on the body (`none` when
the body is not valid JSON). -/
structure HttpResp where
  status : Nat
  raw : String
  asJson : Option JVal

/-- The transport: the response to the `k`-th request this client issues. -/
def Transport := Nat → HttpResp

/-- `self._http.request(url, ...)`: consumes one response from the stream.
The url and any request body do not influence the modelled transport, but
are taken as arguments so that each operation's definition records what it
sends. -/
def httpRequest (t : Transport) (k : Nat) (_url : String) (_body : Option JVal) :
    HttpResp × Nat :=
  (t k, k + 1)

/-- `json.loads` on a response body: a body that is not valid JSON raises
`json.JSONDecodeError`, a subclass of `ValueError`. -/
def jsonLoads (r : HttpResp) : Except PyErr JVal :=
  match r.asJson with
  | some v => .ok v
  | none => .error .valueError

namespace DoorBird

/-- `DoorBird.__request`: one HTTP request, then JSON-decode the body. -/
def request (_c : DoorBird) (t : Transport) (k : Nat) (u : String) :
    Except PyErr JVal × Nat :=
  let (resp, k1) := httpRequest t k u none
  (jsonLoads resp, k1)

/-- `data["BHA"]["RETURNCODE"]` followed by `int(_) == 1`, the decoding
shared by `ready`, `energize_relay` and `turn_light_on`. Indexing a
non-dict raises `TypeError`. -/
def returncodeIsOne (data : JVal) : Except PyErr Bool := do
  match data with
  | .jObj fs =>
    let bha ← dictGet fs "BHA"
    match bha with
    | .jObj bfs =>
      let code ← dictGet bfs "RETURNCODE"
      let n ← pyIntJ code
      pure (n == 1)
    | _ => .error .typeError
  | _ => .error .typeError

/-- `DoorBird.ready`: a first raw request (for the status code), then a
second request through `__request` (for the JSON body); the `try` block
turns any `ValueError` — including a JSON decode failure — into
`(False, status)`, while other exceptions propagate. -/
def ready (c : DoorBird) (t : Transport) (k : Nat) :
    Except PyErr (Bool × Nat) × Nat :=
  let u := c.url "info.cgi" [] 80 false
  let (resp, k1) := httpRequest t k u none
  let (dataE, k2) := c.request t k1 u
  let body : Except PyErr (Bool × Nat) := do
    let data ← dataE
    let ok ← returncodeIsOne data
    pure (ok, resp.status)
  match body with
  | .error .valueError => (.ok (false, resp.status), k2)
  | r => (r, k2)

/-- `DoorBird.energize_relay(relay)`. -/
def energize_relay (c : DoorBird) (relay : Int) (t : Transport) (k : Nat) :
    Except PyErr Bool × Nat :=
  let u := c.url "open-door.cgi" [("r", pyStr relay)] 80 false
  let (dataE, k1) := c.request t k u
  ((do returncodeIsOne (← dataE)), k1)

/-- `DoorBird.turn_light_on`. -/
def turn_light_on (c : DoorBird) (t : Transport) (k : Nat) :
    Except PyErr Bool × Nat :=
  let u := c.url "light-on.cgi" [] 80 false
  let (dataE, k1) := c.request t k u
  ((do returncodeIsOne (← dataE)), k1)

/-- `DoorBird.schedule`. -/
def schedule (c : DoorBird) (t : Transport) (k : Nat) :
    Except PyErr (List DoorBirdScheduleEntry) × Nat :=
  let u := c.url "schedule.cgi" [] 80 false
  let (dataE, k1) := c.request t k u
  ((do DoorBirdScheduleEntry.parse_all (← dataE)), k1)

/-- `DoorBird.change_schedule(entry)`: one POST whose body is the JSON
export of the entry. -/
def change_schedule (c : DoorBird) (entry : DoorBirdScheduleEntry)
    (t : Transport) (k : Nat) : (Bool × Nat) × Nat :=
  let u := c.url "schedule.cgi" [] 80 false
  let (resp, k1) := httpRequest t k u (some entry.exportJson)
  ((resp.status == 200, resp.status), k1)

/-- `DoorBird.delete_schedule(event, param)`. -/
def delete_schedule (c : DoorBird) (event param : String)
    (t : Transport) (k : Nat) : Bool × Nat :=
  let u := c.url "schedule.cgi"
    [("action", "remove"), ("input", event), ("param", param)] 80 false
  let (resp, k1) := httpRequest t k u none
  (resp.status == 200, k1)

/-- `content.split("=")` for a one-character separator, on the decoded
characters of the body. -/
def pySplitChar (sep : Char) : List Char → List (List Char)
  | [] => [[]]
  | c :: cs =>
    match pySplitChar sep cs with
    | [] => if c = sep then [[], [c]] else [[c]]
    | h :: tl => if c = sep then [] :: h :: tl else (c :: h) :: tl

/-- The shared body of `doorbell_state` and `motion_sensor_state`:
`int(content.split("=")[1]) == 1`, with `except IndexError` mapping a
missing separator to `False`, while a `ValueError` from `int` propagates. -/
def monitorParse (body : String) : Except PyErr Bool :=
  match (pySplitChar '=' body.data).get? 1 with
  | none => .ok false
  | some v =>
    match pyIntOfChars v with
    | some n => .ok (n == 1)
    | none => .error .valueError

/-- `DoorBird.doorbell_state`. -/
def doorbell_state (c : DoorBird) (t : Transport) (k : Nat) :
    Except PyErr Bool × Nat :=
  let u := c.url "monitor.cgi" [("check", "doorbell")] 80 false
  let (resp, k1) := httpRequest t k u none
  (monitorParse resp.raw, k1)

/-- `DoorBird.motion_sensor_state`. -/
def motion_sensor_state (c : DoorBird) (t : Transport) (k : Nat) :
    Except PyErr Bool × Nat :=
  let u := c.url "monitor.cgi" [("check", "motionsensor")] 80 false
  let (resp, k1) := httpRequest t k u none
  (monitorParse resp.raw, k1)

/-- `data["BHA"]["VERSION"][0]` for `info`: list indexing, where an empty
list raises `IndexError` (left as `TypeError` only for non-lists). -/
def versionHead : JVal → Except PyErr JVal
  | .jArr (x :: _) => .ok x
  | .jArr [] => .error .valueError
  | _ => .error .typeError

/-- `DoorBird.info`. -/
def info (c : DoorBird) (t : Transport) (k : Nat) :
    Except PyErr JVal × Nat :=
  let u := c.url "info.cgi" [] 80 false
  let (dataE, k1) := c.request t k u
  let r : Except PyErr JVal := do
    let data ← dataE
    match data with
    | .jObj fs =>
      let bha ← dictGet fs "BHA"
      match bha with
      | .jObj bfs =>
        let ver ← dictGet bfs "VERSION"
        versionHead ver
      | _ => .error .typeError
    | _ => .error .typeError
  (r, k1)

/-- `DoorBird.favorites`. -/
def favorites (c : DoorBird) (t : Transport) (k : Nat) :
    Except PyErr JVal × Nat :=
  let u := c.url "favorites.cgi" [] 80 false
  c.request t k u

/-- Python truthiness of the optional `fav_id` argument (an `int` or
`None`): `None` and `0` are falsy. -/
def favIdTruthy : Option Int → Bool
  | none => false
  | some n => n != 0

/-- The query arguments `change_favorite` builds: `id` is appended only
when `if fav_id:` holds. -/
def changeFavoriteArgs (fav_type title value : String) (fav_id : Option Int) :
    List (String × String) :=
  let args := [("action", "save"), ("type", fav_type),
               ("title", title), ("value", value)]
  if favIdTruthy fav_id then args ++ [("id", pyStr (fav_id.getD 0))] else args

/-- `DoorBird.change_favorite(fav_type, title, value, fav_id=None)`. -/
def change_favorite (c : DoorBird) (fav_type title value : String)
    (fav_id : Option Int) (t : Transport) (k : Nat) : Bool × Nat :=
  let u := c.url "favorites.cgi" (changeFavoriteArgs fav_type title value fav_id) 80 false
  let (resp, k1) := httpRequest t k u none
  (resp.status == 200, k1)

/-- `DoorBird.delete_favorite(fav_type, fav_id)`. -/
def delete_favorite (c : DoorBird) (fav_type fav_id : String)
    (t : Transport) (k : Nat) : Bool × Nat :=
  let u := c.url "favorites.cgi"
    [("action", "remove"), ("type", fav_type), ("id", fav_id)] 80 false
  let (resp, k1) := httpRequest t k u none
  (resp.status == 200, k1)

end DoorBird

/-!
## Auxiliary definitions for the claims
-/

/-- Key lookup on a JSON object (used to state properties of exports). -/
def JVal.objLookup : JVal → String → Option JVal
  | .jObj fs, k => fs.lookup k
  | _, _ => none

/-- The schedule mutators callers can apply to a fresh
`DoorBirdScheduleEntrySchedule`. -/
inductive SchedOp where
  | setOnce : Bool → SchedOp
  | addRange : Int → Int → SchedOp
  | addWeekday : Int → Int → SchedOp

/-- Apply one mutator. -/
def applySchedOp (s : DoorBirdScheduleEntrySchedule) :
    SchedOp → DoorBirdScheduleEntrySchedule
  | .setOnce b => s.set_once b
  | .addRange f t => s.add_range f t
  | .addWeekday f t => s.add_weekday f t

/-- The schedule obtained from a fresh one by a sequence of mutator calls. -/
def buildSchedule (ops : List SchedOp) : DoorBirdScheduleEntrySchedule :=
  ops.foldl applySchedOp DoorBirdScheduleEntrySchedule.init

/-- Whether the sequence contains a `set_once` call. -/
def hasSetOnce (ops : List SchedOp) : Bool :=
  ops.any fun op => match op with | .setOnce _ => true | _ => false

/-- Whether the sequence contains an `add_range` call. -/
def hasAddRange (ops : List SchedOp) : Bool :=
  ops.any fun op => match op with | .addRange _ _ => true | _ => false

/-- Whether the sequence contains an `add_weekday` call. -/
def hasAddWeekday (ops : List SchedOp) : Bool :=
  ops.any fun op => match op with | .addWeekday _ _ => true | _ => false

/-- `once` is set. -/
def oncePresent (s : DoorBirdScheduleEntrySchedule) : Bool :=
  s.once.isSome

/-- `from_to` is truthy (a non-empty list). -/
def ftPresent (s : DoorBirdScheduleEntrySchedule) : Bool :=
  match s.from_to with
  | some (_ :: _) => true
  | _ => false

/-- `weekdays` is truthy (a non-empty list). -/
def wdPresent (s : DoorBirdScheduleEntrySchedule) : Bool :=
  match s.weekdays with
  | some (_ :: _) => true
  | _ => false

/-- The states a schedule can be in after any sequence of mutator calls:
the two lists are never `some []`. -/
def DoorBirdScheduleEntrySchedule.Wf (s : DoorBirdScheduleEntrySchedule) : Prop :=
  s.from_to ≠ some [] ∧ s.weekdays ≠ some []

/-- A schedule with `once` disabled and one absolute range, as a caller
would build it. -/
def cexSchedule : DoorBirdScheduleEntrySchedule :=
  (DoorBirdScheduleEntrySchedule.init.set_once false).add_range 1000 2000

/-- An output action that is explicitly disabled. -/
def cexOutput : DoorBirdScheduleEntryOutput :=
  DoorBirdScheduleEntryOutput.init false (.jStr "relay") (.jStr "") (some cexSchedule)

/-- A schedule entry whose round trip loses `enabled = False` and
`once = \x7b"valid": 0\x7d`. -/
def cexEntry : DoorBirdScheduleEntry :=
  { DoorBirdScheduleEntry.init (.jStr "doorbell") (.jStr "") with output := [cexOutput] }

/-- A well-formed entry for the round-trip witness. -/
def rtEntry : DoorBirdScheduleEntry :=
  { DoorBirdScheduleEntry.init (.jStr "doorbell") (.jStr "") with
    output := [DoorBirdScheduleEntryOutput.init true (.jStr "relay") (.jStr "")
      (some (DoorBirdScheduleEntrySchedule.init.add_range 1000 2000))] }

/-- A client instance used for concrete checks. -/
def someClient : DoorBird :=
  { ip := "127.0.0.1", username := "user", password := "pass" }

/-- A transport whose every response has status 404 and a non-JSON body. -/
def tNotJson : Transport := fun _ => { status := 404, raw := "nope", asJson := none }

/-- A transport answering `doorbell=1`. -/
def tDoorbell : Transport := fun _ => { status := 200, raw := "doorbell=1", asJson := none }

/-- A transport answering `motionsensor=1`. -/
def tMotion : Transport := fun _ => { status := 200, raw := "motionsensor=1", asJson := none }

/-- A transport answering a body with no `=` character. -/
def tIdle : Transport := fun _ => { status := 200, raw := "idle", asJson := none }

/-- A JSON object shaped like an exported output but with no `schedule` key. -/
def noScheduleObj : JVal :=
  .jObj [("event", .jStr "relay"), ("param", .jStr "x")]

/-- A mutator sequence setting `once` and one weekday range, but no
absolute range. -/
def c7Ops : List SchedOp :=
  [SchedOp.setOnce true, SchedOp.addWeekday 3600 7200]

/-- An output object whose `enabled` is the wire string `"0"`. -/
def c9ObjZero : List (String × JVal) :=
  [("enabled", .jStr "0"), ("event", .jStr "relay"), ("param", .jStr ""),
   ("schedule", .jObj [])]

/-- An output object with no `enabled` key. -/
def c9ObjNone : List (String × JVal) :=
  [("event", .jStr "relay"), ("param", .jStr ""), ("schedule", .jObj [])]

/-- An entry object with no `input` key. -/
def c10EntryNoInput : List (String × JVal) :=
  [("param", .jStr "")]

/-- An entry object with `input` but no `param` key. -/
def c10EntryNoParam : List (String × JVal) :=
  [("input", .jStr "doorbell")]

/-- An output object with `event` but no `param` key. -/
def c10OutNoParam : List (String × JVal) :=
  [("event", .jStr "relay")]

/-- An output object with `event` and `param` but no `schedule` key. -/
def c10OutNoSchedule : List (String × JVal) :=
  [("event", .jStr "relay"), ("param", .jStr "")]

/-!
## Supporting lemmas
-/

theorem pyNatCharsCore_eq_digits (fuel : Nat) :
    ∀ n, n ≠ 0 → n < fuel →
      pyNatCharsCore fuel n = ((Nat.digits 10 n).map Nat.digitChar).reverse := by
  induction fuel with
  | zero => intro n h0 hlt; omega
  | succ fuel ih =>
    intro n h0 hlt
    by_cases hsmall : n < 10
    · rw [Nat.digits_def' (b := 10) (by norm_num) (Nat.pos_of_ne_zero h0)]
      have hdiv : n / 10 = 0 := Nat.div_eq_of_lt hsmall
      have hmod : n % 10 = n := Nat.mod_eq_of_lt hsmall
      simp [pyNatCharsCore, hsmall, hdiv, hmod]
    · have hd0 : n / 10 ≠ 0 := by omega
      have hdlt : n / 10 < fuel := by omega
      rw [Nat.digits_def' (b := 10) (by norm_num) (Nat.pos_of_ne_zero h0)]
      simp only [pyNatCharsCore, if_neg hsmall, ih (n / 10) hd0 hdlt,
        List.map_cons, List.reverse_cons]

theorem pyNatChars_eq_digits {n : Nat} (h : n ≠ 0) :
    pyNatChars n = ((Nat.digits 10 n).map Nat.digitChar).reverse :=
  pyNatCharsCore_eq_digits (n + 1) n h (by omega)

theorem pyNatCore_append (l1 l2 : List Char) (acc : Nat) :
    pyNatCore (l1 ++ l2) acc =
      match pyNatCore l1 acc with
      | some a => pyNatCore l2 a
      | none => none := by
  induction l1 generalizing acc with
  | nil => simp [pyNatCore]
  | cons c cs ih =>
    simp only [List.cons_append, pyNatCore]
    cases digitVal c with
    | some d => exact ih _
    | none => rfl

theorem digitVal_digitChar {d : Nat} (h : d < 10) :
    digitVal (Nat.digitChar d) = some d := by
  interval_cases d <;> decide

theorem pyNatCore_digits (ds : List Nat) (h : ∀ d ∈ ds, d < 10) (acc : Nat) :
    pyNatCore ((ds.map Nat.digitChar).reverse) acc =
      some (acc * 10 ^ ds.length + Nat.ofDigits 10 ds) := by
  induction ds generalizing acc with
  | nil => simp [pyNatCore, Nat.ofDigits]
  | cons d ds ih =>
    have hd : d < 10 := h d (by simp)
    have hds : ∀ x ∈ ds, x < 10 := fun x hx => h x (by simp [hx])
    simp only [List.map_cons, List.reverse_cons]
    rw [pyNatCore_append, ih hds acc]
    simp only [pyNatCore, digitVal_digitChar hd]
    have : (acc * 10 ^ ds.length + Nat.ofDigits 10 ds) * 10 + d =
        acc * 10 ^ (ds.length + 1) + Nat.ofDigits 10 (d :: ds) := by
      rw [Nat.ofDigits_cons]
      ring
    rw [this]
    simp [Nat.ofDigits_cons]

theorem pyNatChars_ne_nil (n : Nat) : pyNatChars n ≠ [] := by
  by_cases h0 : n = 0
  · subst h0
    decide
  · rw [pyNatChars_eq_digits h0]
    intro hc
    have hnil : (Nat.digits 10 n) ≠ [] := by
      rw [Nat.digits_ne_nil_iff_ne_zero]
      omega
    simp only [List.reverse_eq_nil_iff, List.map_eq_nil_iff] at hc
    exact hnil hc

theorem pyNatOfChars_pyNatChars (n : Nat) :
    pyNatOfChars (pyNatChars n) = some n := by
  have hne := pyNatChars_ne_nil n
  unfold pyNatOfChars
  split
  · exact absurd (by assumption) hne
  · by_cases h0 : n = 0
    · subst h0
      decide
    · rw [pyNatChars_eq_digits h0,
        pyNatCore_digits (Nat.digits 10 n)
          (fun d hd => Nat.digits_lt_base (by norm_num) hd) 0]
      simp [Nat.ofDigits_digits]

theorem mem_pyNatChars_isDigit {c : Char} {n : Nat}
    (h : c ∈ pyNatChars n) : c.isDigit := by
  by_cases h0 : n = 0
  · subst h0
    have : c = '0' := by simpa [pyNatChars, pyNatCharsCore] using h
    subst this
    decide
  · rw [pyNatChars_eq_digits h0] at h
    simp only [List.mem_reverse, List.mem_map] at h
    obtain ⟨d, hd, rfl⟩ := h
    have : d < 10 := Nat.digits_lt_base (by norm_num) hd
    interval_cases d <;> decide

theorem isDigit_ne_dash {c : Char} (h : c.isDigit) : c ≠ '-' := by
  intro hc
  subst hc
  simp [Char.isDigit] at h

theorem isDigit_ne_plus {c : Char} (h : c.isDigit) : c ≠ '+' := by
  intro hc
  subst hc
  simp [Char.isDigit] at h

theorem pyIntOfChars_cons (c : Char) (r : List Char) :
    pyIntOfChars (c :: r) =
      if c = '-' then (pyNatOfChars r).map (fun m => -(Int.ofNat m))
      else if c = '+' then (pyNatOfChars r).map Int.ofNat
      else (pyNatOfChars (c :: r)).map Int.ofNat := rfl

theorem pyIntOfChars_pyIntChars (n : Int) :
    pyIntOfChars (pyIntChars n) = some n := by
  unfold pyIntChars
  by_cases hn : n < 0
  · rw [if_pos hn, pyIntOfChars_cons, if_pos rfl, pyNatOfChars_pyNatChars]
    simp only [Option.map_some']
    congr 1
    simp only [Int.ofNat_eq_natCast]
    omega
  · rw [if_neg hn]
    have hne := pyNatChars_ne_nil n.natAbs
    obtain ⟨c, r, hcr⟩ : ∃ c r, pyNatChars n.natAbs = c :: r := by
      cases h : pyNatChars n.natAbs with
      | nil => exact absurd h hne
      | cons c r => exact ⟨c, r, rfl⟩
    have hdig : c.isDigit := mem_pyNatChars_isDigit (by rw [hcr]; simp)
    rw [hcr, pyIntOfChars_cons,
      if_neg (isDigit_ne_dash hdig), if_neg (isDigit_ne_plus hdig),
      ← hcr, pyNatOfChars_pyNatChars]
    simp only [Option.map_some']
    congr 1
    simp only [Int.ofNat_eq_natCast]
    omega

theorem pyIntJ_pyStr (n : Int) : pyIntJ (.jStr (pyStr n)) = .ok n := by
  simp [pyIntJ, pyStr, pyIntOfChars_pyIntChars]

theorem flatten_map_quoteChar_of_safe (l : List Char)
    (h : ∀ c ∈ l, quoteSafe c) : (l.map quoteChar).flatten = l := by
  induction l with
  | nil => rfl
  | cons c cs ih =>
    have hc : quoteSafe c := h c (by simp)
    have hcs : ∀ x ∈ cs, quoteSafe x := fun x hx => h x (by simp [hx])
    simp [quoteChar, hc, ih hcs]

theorem pyQuotePlus_of_safe (s : String)
    (h : ∀ c ∈ s.data, quoteSafe c) : pyQuotePlus s = s := by
  unfold pyQuotePlus
  rw [flatten_map_quoteChar_of_safe s.data h]

theorem quoteSafe_of_isDigit {c : Char} (h : c.isDigit) : quoteSafe c := by
  simp [quoteSafe, Char.isAlphanum, h]

theorem pyIntChars_safe (n : Int) : ∀ c ∈ pyIntChars n, quoteSafe c := by
  intro c hc
  unfold pyIntChars at hc
  by_cases hn : n < 0
  · simp only [hn, if_true, List.mem_cons] at hc
    rcases hc with rfl | hc
    · decide
    · exact quoteSafe_of_isDigit (mem_pyNatChars_isDigit hc)
  · simp only [hn, if_false] at hc
    exact quoteSafe_of_isDigit (mem_pyNatChars_isDigit hc)

theorem pyQuotePlus_pyStr (n : Int) : pyQuotePlus (pyStr n) = pyStr n :=
  pyQuotePlus_of_safe _ (pyIntChars_safe n)

theorem pySplitChar_of_not_mem {sep : Char} {l : List Char}
    (h : sep ∉ l) : DoorBird.pySplitChar sep l = [l] := by
  induction l with
  | nil => rfl
  | cons c cs ih =>
    have hc : c ≠ sep := fun hc => h (by simp [hc])
    have hcs : sep ∉ cs := fun hm => h (by simp [hm])
    simp [DoorBird.pySplitChar, ih hcs, hc]

theorem monitorParse_no_eq {body : String} (h : '=' ∉ body.data) :
    DoorBird.monitorParse body = .ok false := by
  unfold DoorBird.monitorParse
  rw [pySplitChar_of_not_mem h]
  rfl

/-- `Except` pure, as a rewrite rule. -/
theorem exceptPure {ε α : Type} (a : α) :
    (pure a : Except ε α) = Except.ok a := rfl

/-- `Except` bind on a success, as a rewrite rule. -/
theorem exceptOkBind {ε α β : Type} (a : α) (f : α → Except ε β) :
    (Except.ok a >>= f) = f a := rfl

/-- `Except` bind on a failure, as a rewrite rule. -/
theorem exceptErrBind {ε α β : Type} (e : ε) (f : α → Except ε β) :
    ((Except.error e : Except ε α) >>= f) = Except.error e := rfl

/-- `Except` map on a success, as a rewrite rule. -/
theorem exceptMapOk {ε α β : Type} (g : α → β) (a : α) :
    (g <$> (Except.ok a : Except ε α)) = Except.ok (g a) := rfl

/-- `Except` map on a failure, as a rewrite rule. -/
theorem exceptMapErr {ε α β : Type} (g : α → β) (e : ε) :
    (g <$> (Except.error e : Except ε α)) = Except.error e := rfl

namespace DoorBirdScheduleEntrySchedule

theorem parseRangeStep_rangeObj (s : DoorBirdScheduleEntrySchedule) (p : Int × Int) :
    parseRangeStep s (rangeObj p) = .ok (s.add_range p.1 p.2) := by
  simp [parseRangeStep, rangeObj, dictGet, List.lookup, exceptOkBind, exceptMapOk,
    pyIntJ_pyStr]

theorem parseWeekdayStep_rangeObj (s : DoorBirdScheduleEntrySchedule) (p : Int × Int) :
    parseWeekdayStep s (rangeObj p) = .ok (s.add_weekday p.1 p.2) := by
  simp [parseWeekdayStep, rangeObj, dictGet, List.lookup, exceptOkBind, exceptMapOk,
    pyIntJ_pyStr]

theorem foldlM_parseRangeStep (l : List (Int × Int)) (s : DoorBirdScheduleEntrySchedule) :
    List.foldlM parseRangeStep s (l.map rangeObj) =
      Except.ok (l.foldl (fun a p => a.add_range p.1 p.2) s) := by
  induction l generalizing s with
  | nil => rfl
  | cons p l ih =>
    simp only [List.map_cons, List.foldlM_cons, parseRangeStep_rangeObj, exceptOkBind]
    rw [ih]
    rfl

theorem foldlM_parseWeekdayStep (l : List (Int × Int)) (s : DoorBirdScheduleEntrySchedule) :
    List.foldlM parseWeekdayStep s (l.map rangeObj) =
      Except.ok (l.foldl (fun a p => a.add_weekday p.1 p.2) s) := by
  induction l generalizing s with
  | nil => rfl
  | cons p l ih =>
    simp only [List.map_cons, List.foldlM_cons, parseWeekdayStep_rangeObj, exceptOkBind]
    rw [ih]
    rfl

theorem curFromTo_add_range (s : DoorBirdScheduleEntrySchedule) (p : Int × Int) :
    (s.add_range p.1 p.2).curFromTo = s.curFromTo ++ [p] := by
  show curFromTo { s with from_to := some (s.curFromTo ++ [p]) } = s.curFromTo ++ [p]
  cases hc : s.curFromTo with
  | nil => simp [curFromTo]
  | cons c cs => simp [curFromTo]

theorem curWeekdays_add_weekday (s : DoorBirdScheduleEntrySchedule) (p : Int × Int) :
    (s.add_weekday p.1 p.2).curWeekdays = s.curWeekdays ++ [p] := by
  show curWeekdays { s with weekdays := some (s.curWeekdays ++ [p]) } = s.curWeekdays ++ [p]
  cases hc : s.curWeekdays with
  | nil => simp [curWeekdays]
  | cons c cs => simp [curWeekdays]

theorem foldl_add_range_eq (l : List (Int × Int)) (s : DoorBirdScheduleEntrySchedule)
    (h : l ≠ []) :
    l.foldl (fun a p => a.add_range p.1 p.2) s =
      { s with from_to := some (s.curFromTo ++ l) } := by
  induction l generalizing s with
  | nil => exact absurd rfl h
  | cons p l ih =>
    cases l with
    | nil => simp [List.foldl_cons, List.foldl_nil, add_range]
    | cons q m =>
      rw [List.foldl_cons, ih _ (by simp), curFromTo_add_range]
      simp [add_range, List.append_assoc]

theorem foldl_add_weekday_eq (l : List (Int × Int)) (s : DoorBirdScheduleEntrySchedule)
    (h : l ≠ []) :
    l.foldl (fun a p => a.add_weekday p.1 p.2) s =
      { s with weekdays := some (s.curWeekdays ++ l) } := by
  induction l generalizing s with
  | nil => exact absurd rfl h
  | cons p l ih =>
    cases l with
    | nil => simp [List.foldl_cons, List.foldl_nil, add_weekday]
    | cons q m =>
      rw [List.foldl_cons, ih _ (by simp), curWeekdays_add_weekday]
      simp [add_weekday, List.append_assoc]

theorem foldl_add_range_start (l : List (Int × Int)) (s : DoorBirdScheduleEntrySchedule)
    (p : Int × Int) :
    List.foldl (fun a q => a.add_range q.1 q.2) (s.add_range p.1 p.2) l =
      { s with from_to := some (s.curFromTo ++ p :: l) } := by
  cases l with
  | nil => simp [List.foldl_nil, add_range]
  | cons q m =>
    rw [foldl_add_range_eq _ _ (by simp), curFromTo_add_range]
    simp [add_range, List.append_assoc]

theorem foldl_add_weekday_start (l : List (Int × Int)) (s : DoorBirdScheduleEntrySchedule)
    (p : Int × Int) :
    List.foldl (fun a q => a.add_weekday q.1 q.2) (s.add_weekday p.1 p.2) l =
      { s with weekdays := some (s.curWeekdays ++ p :: l) } := by
  cases l with
  | nil => simp [List.foldl_nil, add_weekday]
  | cons q m =>
    rw [foldl_add_weekday_eq _ _ (by simp), curWeekdays_add_weekday]
    simp [add_weekday, List.append_assoc]

theorem schedule_parse_exportJson (s : DoorBirdScheduleEntrySchedule) (hwf : s.Wf)
    (honce : s.once ≠ some false) :
    parse s.exportJson = .ok s := by
  obtain ⟨o, ft, wd⟩ := s
  have hb : o = none ∨ o = some true := by
    rcases o with - | b
    · exact Or.inl rfl
    · cases b
      · exact absurd rfl honce
      · exact Or.inr rfl
  have hftc : ft = none ∨ ∃ p l, ft = some (p :: l) := by
    rcases ft with - | (- | ⟨p, l⟩)
    · exact Or.inl rfl
    · exact absurd rfl hwf.1
    · exact Or.inr ⟨p, l, rfl⟩
  have hwdc : wd = none ∨ ∃ q m, wd = some (q :: m) := by
    rcases wd with - | (- | ⟨q, m⟩)
    · exact Or.inl rfl
    · exact absurd rfl hwf.2
    · exact Or.inr ⟨q, m, rfl⟩
  rcases hb with rfl | rfl <;> rcases hftc with rfl | ⟨p, l, rfl⟩ <;>
    rcases hwdc with rfl | ⟨q, m, rfl⟩ <;>
    simp [exportJson, exportFields, parse, List.lookup, pyTruthy, onceObj, init,
      set_once, exceptPure, exceptOkBind, foldlM_parseRangeStep, foldlM_parseWeekdayStep,
      parseRangeStep_rangeObj, parseWeekdayStep_rangeObj,
      foldl_add_range_start, foldl_add_weekday_start, curFromTo, curWeekdays]

end DoorBirdScheduleEntrySchedule

theorem output_parse_exportJson (o : DoorBirdScheduleEntryOutput)
    (hen : o.enabled = true) (hwf : o.schedule.Wf)
    (honce : o.schedule.once ≠ some false) :
    DoorBirdScheduleEntryOutput.parse o.exportJson = .ok o := by
  obtain ⟨en, ev, pm, sch⟩ := o
  simp only at hen hwf honce
  subst hen
  unfold DoorBirdScheduleEntryOutput.exportJson DoorBirdScheduleEntryOutput.parse
  simp [List.lookup, pyTruthy, dictGet, exceptOkBind, exceptPure,
    DoorBirdScheduleEntrySchedule.schedule_parse_exportJson sch hwf honce]

theorem mapM_output_parse (outs : List DoorBirdScheduleEntryOutput)
    (h : ∀ o ∈ outs,
      DoorBirdScheduleEntryOutput.parse o.exportJson = .ok o) :
    (outs.map DoorBirdScheduleEntryOutput.exportJson).mapM
      DoorBirdScheduleEntryOutput.parse = .ok outs := by
  induction outs with
  | nil => rfl
  | cons o os ih =>
    have ho := h o (by simp)
    have hos : ∀ x ∈ os, DoorBirdScheduleEntryOutput.parse x.exportJson = .ok x :=
      fun x hx => h x (by simp [hx])
    simp only [List.map_cons, List.mapM_cons, ho, exceptOkBind, ih hos]
    rfl

theorem entry_parse_exportJson (e : DoorBirdScheduleEntry)
    (h : ∀ o ∈ e.output,
      o.enabled = true ∧ o.schedule.Wf ∧ o.schedule.once ≠ some false) :
    DoorBirdScheduleEntry.parse e.exportJson = .ok e := by
  obtain ⟨inp, pm, outs⟩ := e
  simp only at h
  unfold DoorBirdScheduleEntry.exportJson DoorBirdScheduleEntry.parse
  have hm := mapM_output_parse outs (fun o ho =>
    output_parse_exportJson o (h o ho).1 (h o ho).2.1 (h o ho).2.2)
  rw [List.mapM] at hm
  simp [List.lookup, dictGet, exceptOkBind, exceptPure, hm]

namespace DoorBirdScheduleEntrySchedule

theorem lookup_exportFields_once (s : DoorBirdScheduleEntrySchedule) :
    s.exportFields.lookup "once" = s.once.map onceObj := by
  obtain ⟨o, ft, wd⟩ := s
  unfold exportFields
  rcases o with - | b <;> rcases ft with - | (- | ⟨p, l⟩) <;>
    rcases wd with - | (- | ⟨q, m⟩) <;> simp [List.lookup]

theorem lookup_exportFields_fromTo (s : DoorBirdScheduleEntrySchedule) :
    s.exportFields.lookup "from-to" =
      (if ftPresent s then some (.jArr (s.curFromTo.map rangeObj)) else none) := by
  obtain ⟨o, ft, wd⟩ := s
  unfold exportFields ftPresent curFromTo
  rcases o with - | b <;> rcases ft with - | (- | ⟨p, l⟩) <;>
    rcases wd with - | (- | ⟨q, m⟩) <;> simp [List.lookup]

theorem lookup_exportFields_weekdays (s : DoorBirdScheduleEntrySchedule) :
    s.exportFields.lookup "weekdays" =
      (if wdPresent s then some (.jArr (s.curWeekdays.map rangeObj)) else none) := by
  obtain ⟨o, ft, wd⟩ := s
  unfold exportFields wdPresent curWeekdays
  rcases o with - | b <;> rcases ft with - | (- | ⟨p, l⟩) <;>
    rcases wd with - | (- | ⟨q, m⟩) <;> simp [List.lookup]

theorem ftPresent_add_range (s : DoorBirdScheduleEntrySchedule) (f t : Int) :
    ftPresent (s.add_range f t) = true := by
  show ftPresent { s with from_to := some (s.curFromTo ++ [(f, t)]) } = true
  cases hc : s.curFromTo <;> simp [ftPresent]

theorem wdPresent_add_weekday (s : DoorBirdScheduleEntrySchedule) (f t : Int) :
    wdPresent (s.add_weekday f t) = true := by
  show wdPresent { s with weekdays := some (s.curWeekdays ++ [(f, t)]) } = true
  cases hc : s.curWeekdays <;> simp [wdPresent]

end DoorBirdScheduleEntrySchedule

theorem build_once_isSome (ops : List SchedOp) (s : DoorBirdScheduleEntrySchedule) :
    ((ops.foldl applySchedOp s).once).isSome = (hasSetOnce ops || s.once.isSome) := by
  induction ops generalizing s with
  | nil => simp [hasSetOnce]
  | cons op ops ih =>
    cases op <;>
      simp [hasSetOnce, applySchedOp, DoorBirdScheduleEntrySchedule.set_once,
        DoorBirdScheduleEntrySchedule.add_range,
        DoorBirdScheduleEntrySchedule.add_weekday, ih, List.any_cons]

theorem build_ftPresent (ops : List SchedOp) (s : DoorBirdScheduleEntrySchedule) :
    ftPresent (ops.foldl applySchedOp s) = (hasAddRange ops || ftPresent s) := by
  induction ops generalizing s with
  | nil => simp [hasAddRange]
  | cons op ops ih =>
    cases op with
    | setOnce b =>
      simp [hasAddRange, applySchedOp, ih, List.any_cons,
        show ftPresent (DoorBirdScheduleEntrySchedule.set_once s b) = ftPresent s from rfl]
    | addRange f t =>
      simp [hasAddRange, applySchedOp, ih, List.any_cons,
        DoorBirdScheduleEntrySchedule.ftPresent_add_range]
    | addWeekday f t =>
      simp [hasAddRange, applySchedOp, ih, List.any_cons,
        show ftPresent (DoorBirdScheduleEntrySchedule.add_weekday s f t) = ftPresent s from rfl]

theorem build_wdPresent (ops : List SchedOp) (s : DoorBirdScheduleEntrySchedule) :
    wdPresent (ops.foldl applySchedOp s) = (hasAddWeekday ops || wdPresent s) := by
  induction ops generalizing s with
  | nil => simp [hasAddWeekday]
  | cons op ops ih =>
    cases op with
    | setOnce b =>
      simp [hasAddWeekday, applySchedOp, ih, List.any_cons,
        show wdPresent (DoorBirdScheduleEntrySchedule.set_once s b) = wdPresent s from rfl]
    | addRange f t =>
      simp [hasAddWeekday, applySchedOp, ih, List.any_cons,
        show wdPresent (DoorBirdScheduleEntrySchedule.add_range s f t) = wdPresent s from rfl]
    | addWeekday f t =>
      simp [hasAddWeekday, applySchedOp, ih, List.any_cons,
        DoorBirdScheduleEntrySchedule.wdPresent_add_weekday]

/-!
## Claims
-/

/-- C1, counterexample: the entry `cexEntry` (input `"doorbell"`, one
output with `enabled = False` and a schedule with `set_once(False)` and
one from-to range) does not round-trip: parsing its export yields
`enabled = True` and `once` enabled, because `"0"` is a truthy string and
`\x7b"valid": 0\x7d` is a truthy dict. -/
theorem c1_roundtrip_counterexample :
    (DoorBirdScheduleEntry.parse cexEntry.exportJson).map
        (fun e => e.output.map (fun o => (o.enabled, o.schedule.once)))
      = .ok [(true, some true)]
  ∧ cexEntry.output.map (fun o => (o.enabled, o.schedule.once))
      = [(false, some false)] := by
  exact ⟨rfl, rfl⟩

/-- C1 (amended): for every entry built from a non-empty input, any param
and outputs whose `enabled` flag is true (as it is when never explicitly
set) and whose schedules were built by the mutators with `once` not set to
disabled, parsing the exported JSON reproduces the entry exactly; with
`enabled = False` or `once` disabled the parse flips both to true/enabled. -/
theorem c1_roundtrip_amended (si : String) (hsi : si ≠ "") (pm : JVal)
    (outs : List DoorBirdScheduleEntryOutput)
    (h : ∀ o ∈ outs,
      o.enabled = true ∧ o.schedule.Wf ∧ o.schedule.once ≠ some false) :
    DoorBirdScheduleEntry.parse
        (DoorBirdScheduleEntry.exportJson
          { input := .jStr si, param := pm, output := outs }) =
      .ok { input := .jStr si, param := pm, output := outs } :=
  entry_parse_exportJson _ (by simpa using h)

/-- C1, witness: the round trip at the spec's concrete example (input
`"doorbell"`, one enabled `"relay"` output with the range (1000, 2000)). -/
theorem c1_roundtrip_witness :
    DoorBirdScheduleEntry.parse rtEntry.exportJson = .ok rtEntry := by
  refine c1_roundtrip_amended "doorbell" (by decide) (.jStr "") rtEntry.output ?_
  intro o ho
  have hoe : o = DoorBirdScheduleEntryOutput.init true (.jStr "relay") (.jStr "")
      (some (DoorBirdScheduleEntrySchedule.init.add_range 1000 2000)) := by
    simpa [rtEntry, DoorBirdScheduleEntry.init] using ho
  subst hoe
  exact ⟨rfl, ⟨by decide, by decide⟩, by decide⟩

/-- C2: when the transport answers with a body that is not valid JSON,
`ready()` returns `(False, status)` with the response's actual HTTP status
code, and raises nothing: the `json.loads` failure is a `ValueError`
caught by the `try` block. -/
theorem c2_ready_not_json (c : DoorBird) (r : HttpResp) (h : r.asJson = none) :
    (DoorBird.ready c (fun _ => r) 0).1 = .ok (false, r.status) := by
  simp [DoorBird.ready, DoorBird.request, httpRequest, jsonLoads, h, exceptErrBind]

/-- C2, witness: `ready()` against a 404 response with body `"nope"`. -/
theorem c2_ready_witness :
    (DoorBird.ready someClient tNotJson 0).1 = .ok (false, 404) :=
  c2_ready_not_json someClient (tNotJson 0) rfl

/-- C3: `doorbell_state` on body `"doorbell=1"` (and `motion_sensor_state`
on `"motionsensor=1"`) yields true; on any body containing no `=`, both
yield false without raising: the out-of-range index is an `IndexError`
caught by the `except` clause. -/
theorem c3_sensor_states (c : DoorBird) (t : Transport) (k : Nat) :
    ((t k).raw = "doorbell=1" →
      (DoorBird.doorbell_state c t k).1 = .ok true)
  ∧ ((t k).raw = "motionsensor=1" →
      (DoorBird.motion_sensor_state c t k).1 = .ok true)
  ∧ ('=' ∉ (t k).raw.data →
      (DoorBird.doorbell_state c t k).1 = .ok false
    ∧ (DoorBird.motion_sensor_state c t k).1 = .ok false) := by
  refine ⟨?_, ?_, ?_⟩
  · intro h
    show DoorBird.monitorParse (t k).raw = .ok true
    rw [h]
    rfl
  · intro h
    show DoorBird.monitorParse (t k).raw = .ok true
    rw [h]
    rfl
  · intro h
    exact ⟨monitorParse_no_eq h, monitorParse_no_eq h⟩

/-- C3, witness: the sensor states at the concrete bodies `"doorbell=1"`,
`"motionsensor=1"` and `"idle"`. -/
theorem c3_sensor_witness :
    (DoorBird.doorbell_state someClient tDoorbell 0).1 = .ok true
  ∧ (DoorBird.motion_sensor_state someClient tMotion 0).1 = .ok true
  ∧ (DoorBird.doorbell_state someClient tIdle 0).1 = .ok false
  ∧ (DoorBird.motion_sensor_state someClient tIdle 0).1 = .ok false :=
  ⟨(c3_sensor_states someClient tDoorbell 0).1 rfl,
   (c3_sensor_states someClient tMotion 0).2.1 rfl,
   ((c3_sensor_states someClient tIdle 0).2.2 (by decide)).1,
   ((c3_sensor_states someClient tIdle 0).2.2 (by decide)).2⟩

/-- C4, counterexample: `change_favorite` with the supplied id `0` builds
a query without any `id` parameter, because `if fav_id:` tests Python
truthiness and `0` is falsy. -/
theorem c4_counterexample :
    (some (0 : Int) ≠ (none : Option Int))
  ∧ (DoorBird.changeFavoriteArgs "http" "Ring" "http://cb" (some 0)).lookup "id"
      = none :=
  ⟨by decide, rfl⟩

/-- C4 (amended): the query built by `change_favorite` contains an `id`
parameter exactly when the supplied `fav_id` is truthy, that is, present
and non-zero; with no `fav_id` (or a zero one) the parameter is omitted. -/
theorem c4_id_iff_truthy (fav_type title value : String) (fav_id : Option Int) :
    ((DoorBird.changeFavoriteArgs fav_type title value fav_id).lookup "id").isSome
      ↔ ∃ n, fav_id = some n ∧ n ≠ 0 := by
  cases fav_id with
  | none => simp [DoorBird.changeFavoriteArgs, DoorBird.favIdTruthy, List.lookup]
  | some n =>
    by_cases h : n = 0
    · subst h
      simp [DoorBird.changeFavoriteArgs, DoorBird.favIdTruthy, List.lookup]
    · simp [DoorBird.changeFavoriteArgs, DoorBird.favIdTruthy, h, List.lookup]

/-- C5, counterexample: `ready()` issues two transport requests, not one —
one raw request for the status code and a second one inside `__request`
for the JSON body. -/
theorem c5_counterexample :
    (DoorBird.ready someClient tNotJson 0).2 = 2
  ∧ (DoorBird.ready someClient tNotJson 0).2 ≠ 1 :=
  ⟨rfl, by decide⟩

/-- C5 (amended): every listed network operation issues exactly one
transport request per invocation, except `ready()`, which issues two. -/
theorem c5_request_counts (c : DoorBird) (t : Transport) (k : Nat)
    (relay : Int) (entry : DoorBirdScheduleEntry) (ev pm : String)
    (ft ti v : String) (fid : Option Int) (dft dfi : String) :
    (DoorBird.energize_relay c relay t k).2 = k + 1
  ∧ (DoorBird.turn_light_on c t k).2 = k + 1
  ∧ (DoorBird.schedule c t k).2 = k + 1
  ∧ (DoorBird.change_schedule c entry t k).2 = k + 1
  ∧ (DoorBird.delete_schedule c ev pm t k).2 = k + 1
  ∧ (DoorBird.doorbell_state c t k).2 = k + 1
  ∧ (DoorBird.motion_sensor_state c t k).2 = k + 1
  ∧ (DoorBird.info c t k).2 = k + 1
  ∧ (DoorBird.favorites c t k).2 = k + 1
  ∧ (DoorBird.change_favorite c ft ti v fid t k).2 = k + 1
  ∧ (DoorBird.delete_favorite c dft dfi t k).2 = k + 1
  ∧ (DoorBird.ready c t k).2 = k + 2 := by
  refine ⟨rfl, rfl, rfl, rfl, rfl, rfl, rfl, rfl, rfl, rfl, rfl, ?_⟩
  show (DoorBird.ready c t k).2 = k + 2
  unfold DoorBird.ready
  simp only [DoorBird.request, httpRequest, jsonLoads]
  split <;> rfl

/-- C6, counterexample: parsing an output object with no `schedule` key
raises `KeyError("schedule")` instead of defaulting to an empty
schedule. -/
theorem c6_counterexample :
    DoorBirdScheduleEntryOutput.parse noScheduleObj =
      .error (.keyError "schedule") := rfl

/-- C6 (amended): the `schedule` attribute is exactly one schedule and the
constructor defaults it to a fresh empty schedule when absent; but
`DoorBirdScheduleEntryOutput.parse` reads `data["schedule"]` with plain
indexing, so a JSON object missing the `schedule` key (with `event` and
`param` present) makes the parse fail with `KeyError("schedule")` rather
than defaulting. -/
theorem c6_schedule_default (en : Bool) (ev pm : JVal)
    (fs : List (String × JVal)) (evv pmv : JVal)
    (h1 : fs.lookup "event" = some evv) (h2 : fs.lookup "param" = some pmv)
    (h3 : fs.lookup "schedule" = none) :
    (DoorBirdScheduleEntryOutput.init en ev pm none).schedule =
      DoorBirdScheduleEntrySchedule.init
  ∧ DoorBirdScheduleEntryOutput.parse (.jObj fs) =
      .error (.keyError "schedule") := by
  refine ⟨rfl, ?_⟩
  unfold DoorBirdScheduleEntryOutput.parse
  simp [dictGet, h1, h2, h3, exceptOkBind, exceptErrBind]

/-- C6, witness: the amended claim at a concrete output object. -/
theorem c6_witness :
    (DoorBirdScheduleEntryOutput.init true (.jStr "relay") (.jStr "") none).schedule =
      DoorBirdScheduleEntrySchedule.init
  ∧ DoorBirdScheduleEntryOutput.parse
      (.jObj [("event", .jStr "relay"), ("param", .jStr "")]) =
      .error (.keyError "schedule") :=
  c6_schedule_default true (.jStr "relay") (.jStr "") _ _ _ rfl rfl rfl

theorem curWeekdays_ne_nil_of_wdPresent (s : DoorBirdScheduleEntrySchedule)
    (h : wdPresent s = true) : s.curWeekdays ≠ [] := by
  obtain ⟨o, ft, wd⟩ := s
  rcases wd with - | (- | ⟨q, m⟩) <;>
    simp_all [wdPresent, DoorBirdScheduleEntrySchedule.curWeekdays]

/-- C7: for a schedule built by any sequence of `set_once`, `add_range`
and `add_weekday` calls, `export()` emits the keys `once`, `from-to` and
`weekdays` exactly when the corresponding mutator was called; an unset
field's key is absent from the exported object, and `weekdays`, when
present, is a non-empty JSON list. -/
theorem c7_export_presence (ops : List SchedOp) :
    (((buildSchedule ops).exportJson.objLookup "once").isSome
      ↔ hasSetOnce ops = true)
  ∧ (((buildSchedule ops).exportJson.objLookup "from-to").isSome
      ↔ hasAddRange ops = true)
  ∧ (((buildSchedule ops).exportJson.objLookup "weekdays").isSome
      ↔ hasAddWeekday ops = true)
  ∧ (hasAddWeekday ops = true →
      ∃ l, l ≠ [] ∧
        (buildSchedule ops).exportJson.objLookup "weekdays" = some (.jArr l)) := by
  have ho : (buildSchedule ops).once.isSome = hasSetOnce ops := by
    rw [buildSchedule, build_once_isSome]
    simp [DoorBirdScheduleEntrySchedule.init]
  have hf : ftPresent (buildSchedule ops) = hasAddRange ops := by
    rw [buildSchedule, build_ftPresent]
    simp [ftPresent, DoorBirdScheduleEntrySchedule.init]
  have hw : wdPresent (buildSchedule ops) = hasAddWeekday ops := by
    rw [buildSchedule, build_wdPresent]
    simp [wdPresent, DoorBirdScheduleEntrySchedule.init]
  refine ⟨?_, ?_, ?_, ?_⟩
  · rw [show (buildSchedule ops).exportJson.objLookup "once" =
        (buildSchedule ops).exportFields.lookup "once" from rfl,
      DoorBirdScheduleEntrySchedule.lookup_exportFields_once]
    cases hoo : (buildSchedule ops).once with
    | none => rw [hoo] at ho; simp [← ho]
    | some b => rw [hoo] at ho; simp [← ho]
  · rw [show (buildSchedule ops).exportJson.objLookup "from-to" =
        (buildSchedule ops).exportFields.lookup "from-to" from rfl,
      DoorBirdScheduleEntrySchedule.lookup_exportFields_fromTo, hf]
    by_cases hh : hasAddRange ops <;> simp [hh]
  · rw [show (buildSchedule ops).exportJson.objLookup "weekdays" =
        (buildSchedule ops).exportFields.lookup "weekdays" from rfl,
      DoorBirdScheduleEntrySchedule.lookup_exportFields_weekdays, hw]
    by_cases hh : hasAddWeekday ops <;> simp [hh]
  · intro h
    rw [show (buildSchedule ops).exportJson.objLookup "weekdays" =
        (buildSchedule ops).exportFields.lookup "weekdays" from rfl,
      DoorBirdScheduleEntrySchedule.lookup_exportFields_weekdays, hw, if_pos h]
    refine ⟨(buildSchedule ops).curWeekdays.map
      DoorBirdScheduleEntrySchedule.rangeObj, ?_, rfl⟩
    have hne := curWeekdays_ne_nil_of_wdPresent (buildSchedule ops) (by rw [hw]; exact h)
    simp [hne]

/-- C7, witness: a schedule built with `set_once(True)` and one weekday
range exports `once` and a non-empty `weekdays` list but no `from-to`. -/
theorem c7_export_witness :
    ((buildSchedule c7Ops).exportJson.objLookup "once").isSome
  ∧ ¬ ((buildSchedule c7Ops).exportJson.objLookup "from-to").isSome
  ∧ ∃ l, l ≠ [] ∧
      (buildSchedule c7Ops).exportJson.objLookup "weekdays" = some (.jArr l) :=
  ⟨(c7_export_presence c7Ops).1.mpr rfl,
   fun hc => absurd ((c7_export_presence c7Ops).2.1.mp hc) (by decide),
   (c7_export_presence c7Ops).2.2.2 rfl⟩

/-- C8: the URL built by `energize_relay(r)` is the credential-free form
`http://<ip>:80/bha-api/open-door.cgi?r=<r>` — it contains the query
parameter `r=<r>` and no embedded username or password — and an exported
output serializes `enabled` as the string `"1"` or `"0"`, never as a
native JSON boolean. -/
theorem c8_relay_url_and_enabled (c : DoorBird) (r : Int)
    (o : DoorBirdScheduleEntryOutput) :
    DoorBird.url c "open-door.cgi" [("r", pyStr r)] 80 false =
      "http://" ++ c.ip ++ ":80/bha-api/open-door.cgi?r=" ++ pyStr r
  ∧ (∃ pre, DoorBird.url c "open-door.cgi" [("r", pyStr r)] 80 false =
      pre ++ ("r=" ++ pyStr r))
  ∧ o.exportJson.objLookup "enabled" =
      some (.jStr (if o.enabled then "1" else "0")) := by
  have hq : urlencode [("r", pyStr r)] = "r=" ++ pyStr r := by
    show pyQuotePlus "r" ++ "=" ++ pyQuotePlus (pyStr r) = "r=" ++ pyStr r
    rw [pyQuotePlus_pyStr]
    rfl
  refine ⟨?_, ?_, ?_⟩
  · unfold DoorBird.url
    rw [if_neg (by simp)]
    simp only [Bool.false_eq_true, if_false, hq]
    rw [show pyStr 80 = "80" from rfl]
    apply String.ext
    simp [String.data_append, List.append_assoc]
  · refine ⟨"http://" ++ c.ip ++ ":" ++ pyStr 80 ++ "/bha-api/" ++ "open-door.cgi" ++ "?", ?_⟩
    show (if ([("r", pyStr r)] : List (String × String)) = [] then
        "http://" ++ c.ip ++ ":" ++ pyStr 80 ++ "/bha-api/" ++ "open-door.cgi" ++ "?" ++ ""
      else "http://" ++ c.ip ++ ":" ++ pyStr 80 ++ "/bha-api/" ++ "open-door.cgi" ++ "?" ++
        urlencode [("r", pyStr r)]) = _
    rw [if_neg (by simp), hq]
  · cases he : o.enabled <;>
      simp [DoorBirdScheduleEntryOutput.exportJson, JVal.objLookup, List.lookup, he]

/-- C9: `DoorBirdScheduleEntryOutput.parse` converts a present `enabled`
value by truthiness, so any non-empty string — including the wire value
`"0"` — parses to `enabled = True`; and an absent `enabled` key parses to
`False`, not the constructor default `True`. -/
theorem c9_enabled_truthiness (fs : List (String × JVal)) (s : String)
    (evv pmv sv : JVal) (sch : DoorBirdScheduleEntrySchedule)
    (hev : fs.lookup "event" = some evv) (hpm : fs.lookup "param" = some pmv)
    (hsv : fs.lookup "schedule" = some sv)
    (hsch : DoorBirdScheduleEntrySchedule.parse sv = .ok sch) :
    (fs.lookup "enabled" = some (.jStr s) → s ≠ "" →
      DoorBirdScheduleEntryOutput.parse (.jObj fs) =
        .ok { enabled := true, event := evv, param := pmv, schedule := sch })
  ∧ (fs.lookup "enabled" = none →
      DoorBirdScheduleEntryOutput.parse (.jObj fs) =
        .ok { enabled := false, event := evv, param := pmv, schedule := sch }) := by
  constructor
  · intro he hne
    unfold DoorBirdScheduleEntryOutput.parse
    simp [he, hne, pyTruthy, dictGet, hev, hpm, hsv, hsch, exceptOkBind, exceptPure]
  · intro he
    unfold DoorBirdScheduleEntryOutput.parse
    simp [he, dictGet, hev, hpm, hsv, hsch, exceptOkBind, exceptPure]

/-- C9, witness: with `enabled` set to the wire string `"0"` the parsed
flag is true; with `enabled` absent it is false. -/
theorem c9_enabled_witness :
    DoorBirdScheduleEntryOutput.parse (.jObj c9ObjZero) =
      .ok { enabled := true, event := .jStr "relay", param := .jStr "",
            schedule := DoorBirdScheduleEntrySchedule.init }
  ∧ DoorBirdScheduleEntryOutput.parse (.jObj c9ObjNone) =
      .ok { enabled := false, event := .jStr "relay", param := .jStr "",
            schedule := DoorBirdScheduleEntrySchedule.init } :=
  ⟨(c9_enabled_truthiness c9ObjZero "0" _ _ _ _ rfl rfl rfl rfl).1 rfl (by decide),
   (c9_enabled_truthiness c9ObjNone "" _ _ _ _ rfl rfl rfl rfl).2 rfl⟩

/-- C10: the strict parses propagate missing-key errors: an entry object
without `input` or without `param` fails with the corresponding
`KeyError`, and an output object without `param` or without `schedule`
fails likewise, even though the in-memory constructors give `param` and
`schedule` defaults. -/
theorem c10_missing_keys
    (fs0 fs gs hs : List (String × JVal)) (iv ev1 ev2 pv : JVal)
    (h0 : fs0.lookup "input" = none)
    (h1 : fs.lookup "input" = some iv) (h2 : fs.lookup "param" = none)
    (h3 : gs.lookup "event" = some ev1) (h4 : gs.lookup "param" = none)
    (h5 : hs.lookup "event" = some ev2) (h6 : hs.lookup "param" = some pv)
    (h7 : hs.lookup "schedule" = none) :
    DoorBirdScheduleEntry.parse (.jObj fs0) = .error (.keyError "input")
  ∧ DoorBirdScheduleEntry.parse (.jObj fs) = .error (.keyError "param")
  ∧ DoorBirdScheduleEntryOutput.parse (.jObj gs) = .error (.keyError "param")
  ∧ DoorBirdScheduleEntryOutput.parse (.jObj hs) = .error (.keyError "schedule") := by
  refine ⟨?_, ?_, ?_, ?_⟩
  · unfold DoorBirdScheduleEntry.parse
    simp [dictGet, h0, exceptOkBind, exceptErrBind]
  · unfold DoorBirdScheduleEntry.parse
    simp [dictGet, h1, h2, exceptOkBind, exceptErrBind]
  · unfold DoorBirdScheduleEntryOutput.parse
    simp [dictGet, h3, h4, exceptOkBind, exceptErrBind]
  · unfold DoorBirdScheduleEntryOutput.parse
    simp [dictGet, h5, h6, h7, exceptOkBind, exceptErrBind]

/-- C10, witness: the four missing-key failures at concrete objects. -/
theorem c10_missing_keys_witness :
    DoorBirdScheduleEntry.parse (.jObj c10EntryNoInput) = .error (.keyError "input")
  ∧ DoorBirdScheduleEntry.parse (.jObj c10EntryNoParam) = .error (.keyError "param")
  ∧ DoorBirdScheduleEntryOutput.parse (.jObj c10OutNoParam) = .error (.keyError "param")
  ∧ DoorBirdScheduleEntryOutput.parse (.jObj c10OutNoSchedule) =
      .error (.keyError "schedule") :=
  c10_missing_keys c10EntryNoInput c10EntryNoParam c10OutNoParam c10OutNoSchedule
    (.jStr "doorbell") (.jStr "relay") (.jStr "relay") (.jStr "")
    rfl rfl rfl rfl rfl rfl rfl rfl
